import Mathlib

/-
Verification of the churn-risk scoring and dataset-comparison engine of the
churn-prediction dashboard (src/app.py).  Probabilities and currency amounts
are embedded as exact rationals; the comparison structure of the Python float
code (threshold tests against 0.3, 0.5, 0.7, additive increments of 0.1..0.3)
is preserved by this embedding.
-/

namespace ChurnApp

/-- The four risk tiers of the dashboard. -/
inductive RiskTier
  | low
  | medium
  | high
  | critical
deriving DecidableEq, Repr

/-- Numeric severity of a tier, for stating monotonicity. -/
def RiskTier.severity : RiskTier → Nat
  | .low => 0
  | .medium => 1
  | .high => 2
  | .critical => 3

/-- Single-record risk classification, from src/app.py line 727:
risk = "Critical" if prob >= 0.7 else "High" if prob >= 0.5
else "Medium" if prob >= 0.3 else "Low". -/
def classify (p : ℚ) : RiskTier :=
  if 7/10 ≤ p then .critical
  else if 1/2 ≤ p then .high
  else if 3/10 ≤ p then .medium
  else .low

/-- Batch binning used by the dashboard risk-distribution chart, from
src/app.py lines 602-607: pd.cut with bins=[0, 0.3, 0.5, 0.7, 1.0] and
labels=[Low, Medium, High, Critical].  pd.cut defaults to right-closed,
left-open intervals and assigns no bin (NaN) outside (0, 1]. -/
def batchBin (p : ℚ) : Option RiskTier :=
  if 0 < p ∧ p ≤ 3/10 then some .low
  else if 3/10 < p ∧ p ≤ 1/2 then some .medium
  else if 1/2 < p ∧ p ≤ 7/10 then some .high
  else if 7/10 < p ∧ p ≤ 1 then some .critical
  else none

/-- Customer record fields read by the quick-predict form, src/app.py
lines 692-712.  Enumerated fields keep the exact option strings of the form
widgets. -/
structure CustomerRecord where
  gender : String
  senior : String
  partner : String
  dependents : String
  tenure : Nat
  contract : String
  internet : String
  phone : String
  monthly : ℚ
  total : ℚ
  payment : String
deriving DecidableEq, Repr

/-- The additive heuristic sum before the final clamp, from src/app.py lines
716-724: base 0.2; +0.3 when contract is month-to-month; +0.2 when tenure
is below 12; +0.1 when internet is fiber optic; +0.1 when payment is
electronic check. -/
def estimateRaw (r : CustomerRecord) : ℚ :=
  let p : ℚ := 1/5
  let p := if r.contract = "Month-to-month" then p + 3/10 else p
  let p := if r.tenure < 12 then p + 1/5 else p
  let p := if r.internet = "Fiber optic" then p + 1/10 else p
  let p := if r.payment = "Electronic check" then p + 1/10 else p
  p

/-- The heuristic churn estimate, src/app.py line 725:
prob = min(prob, 0.95). -/
def estimate (r : CustomerRecord) : ℚ :=
  min (estimateRaw r) (19/20)

/-- Recommended actions as printed by src/app.py lines 757-769, which branch
on the probability: >= 0.7, then >= 0.5, then everything below. -/
def recommendOfProb (p : ℚ) : List String :=
  if 7/10 ≤ p then
    ["Offer contract upgrade discount", "Assign dedicated support"]
  else if 1/2 ≤ p then
    ["Schedule check-in call", "Review pricing options"]
  else
    ["Continue standard engagement"]

/-- The recommendations viewed as a fixed lookup on the risk tier. -/
def recommend : RiskTier → List String
  | .critical => ["Offer contract upgrade discount", "Assign dedicated support"]
  | .high => ["Schedule check-in call", "Review pricing options"]
  | .medium => ["Continue standard engagement"]
  | .low => ["Continue standard engagement"]

/-- The high-churn-risk record of the spec's first concrete case:
month-to-month contract, tenure 3, fiber internet, electronic check. -/
def monthToMonthFiberRecord : CustomerRecord :=
  { gender := "Male", senior := "No", partner := "No", dependents := "No",
    tenure := 3, contract := "Month-to-month", internet := "Fiber optic",
    phone := "Yes", monthly := 70, total := 210,
    payment := "Electronic check" }

/-- The low-churn-risk record of the spec's second concrete case: two-year
contract, tenure 48, DSL internet, bank transfer. -/
def twoYearDslRecord : CustomerRecord :=
  { gender := "Female", senior := "No", partner := "Yes", dependents := "Yes",
    tenure := 48, contract := "Two year", internet := "DSL",
    phone := "Yes", monthly := 45, total := 2160,
    payment := "Bank transfer (automatic)" }

/-- Modelled from the spec: a DatasetSnapshot aggregate (spec section 3).
The snapshot comparator itself runs in the backend API and is not in this
repository; only its caller show_comparison_results (src/app.py lines
473-495) and the identical-selection guard (lines 440-446) are. -/
structure DatasetSnapshot where
  id : Nat
  count : Nat
  churnRatePct : ℚ
  totalRevenue : ℚ
  revenueAtRisk : ℚ
deriving DecidableEq, Repr

/-- Modelled from the spec: the ComparisonResult record (spec section 3),
insight strings excluded. -/
structure ComparisonResult where
  customerChange : Int
  churnRateChange : ℚ
  revenueChange : ℚ
  riskChange : ℚ
  profitLossAmount : ℚ
  isImprovement : Bool
deriving DecidableEq, Repr

/-- Modelled from the spec: the comparison failure taxonomy (spec section 7).
The identical-dataset failure is a distinct special case of the invalid
comparison, per the spec wording that a same-dataset comparison fails with
an InvalidComparisonError signaled as a distinct IdenticalDatasetError. -/
inductive CompareError
  | invalidComparison
  | identicalDataset
deriving DecidableEq, Repr

/-- Every comparison failure counts as an InvalidComparisonError; the
identical-dataset case is its distinct subclass. -/
def CompareError.isInvalidComparisonError : CompareError → Bool
  | .invalidComparison => true
  | .identicalDataset => true

/-- Whether a failure is specifically the identical-dataset case. -/
def CompareError.isIdenticalDatasetError : CompareError → Bool
  | .invalidComparison => false
  | .identicalDataset => true

/-- Modelled from the spec: compare (spec section 4.2): rejects a
same-dataset pair and any zero-count snapshot, otherwise produces the
signed deltas, the annualized profit/loss = -(at-risk delta) * 12, and the
strict-decrease improvement flag. -/
def compare (b c : DatasetSnapshot) : Except CompareError ComparisonResult :=
  if b.id = c.id then .error .identicalDataset
  else if b.count = 0 ∨ c.count = 0 then .error .invalidComparison
  else .ok {
    customerChange := (c.count : Int) - (b.count : Int),
    churnRateChange := c.churnRatePct - b.churnRatePct,
    revenueChange := c.totalRevenue - b.totalRevenue,
    riskChange := c.revenueAtRisk - b.revenueAtRisk,
    profitLossAmount := -(c.revenueAtRisk - b.revenueAtRisk) * 12,
    isImprovement := decide (c.churnRatePct - b.churnRatePct < 0) }

/-- The baseline snapshot of the spec's concrete comparison. -/
def baselineSnapshot : DatasetSnapshot :=
  { id := 1, count := 1000, churnRatePct := 30, totalRevenue := 50000,
    revenueAtRisk := 15000 }

/-- The current snapshot of the spec's concrete comparison. -/
def currentSnapshot : DatasetSnapshot :=
  { id := 2, count := 1050, churnRatePct := 25, totalRevenue := 52000,
    revenueAtRisk := 12000 }

/-- A zero-customer snapshot, exercising the empty-comparison failure. -/
def emptySnapshot : DatasetSnapshot :=
  { id := 3, count := 0, churnRatePct := 0, totalRevenue := 0,
    revenueAtRisk := 0 }

/-- One row of the dashboard predictions table: precomputed churn
probability and monthly charge, as read by src/app.py lines 574-578. -/
structure DashRow where
  prob : ℚ
  monthlyCharges : ℚ
deriving DecidableEq, Repr

/-- High-risk customer count, src/app.py line 575: the number of rows with
Churn_Probability >= 0.7. -/
def highRiskCount (data : List DashRow) : Nat :=
  (data.filter fun r => 7/10 ≤ r.prob).length

/-- Critical/at-risk customer count, src/app.py line 576: the number of
rows with Churn_Probability >= 0.5. -/
def atRiskCount (data : List DashRow) : Nat :=
  (data.filter fun r => 1/2 ≤ r.prob).length

/-- Monthly revenue at risk, src/app.py line 577: the sum of MonthlyCharges
over the rows with Churn_Probability >= 0.5. -/
def revenueAtRisk (data : List DashRow) : ℚ :=
  ((data.filter fun r => 1/2 ≤ r.prob).map fun r => r.monthlyCharges).sum

/-- Average churn rate, src/app.py line 578: the mean probability times
100. -/
def avgChurnRatePct (data : List DashRow) : ℚ :=
  ((data.map fun r => r.prob).sum / (data.length : ℚ)) * 100

/-- A row with probability exactly at the 0.5 at-risk boundary. -/
def boundaryRow : DashRow := { prob := 1/2, monthlyCharges := 80 }

end ChurnApp

open ChurnApp

/-- C1: classify follows the fixed threshold ladder with lower-inclusive
boundaries: p >= 0.70 gives Critical, 0.50 <= p < 0.70 gives High,
0.30 <= p < 0.50 gives Medium, p < 0.30 gives Low; in particular
classify(0.30) = Medium, classify(0.2999) = Low, classify(0.70) = Critical,
classify(0.6999) = High, and the tier severity is monotonically
non-decreasing in p. -/
theorem classify_threshold_ladder :
    classify (3/10) = .medium ∧
    classify (2999/10000) = .low ∧
    classify (7/10) = .critical ∧
    classify (6999/10000) = .high ∧
    (∀ p : ℚ, 7/10 ≤ p → classify p = .critical) ∧
    (∀ p : ℚ, 1/2 ≤ p → p < 7/10 → classify p = .high) ∧
    (∀ p : ℚ, 3/10 ≤ p → p < 1/2 → classify p = .medium) ∧
    (∀ p : ℚ, p < 3/10 → classify p = .low) ∧
    (∀ p q : ℚ, p ≤ q → (classify p).severity ≤ (classify q).severity) := by
  refine ⟨by norm_num [classify], by norm_num [classify], by norm_num [classify],
    by norm_num [classify], ?_, ?_, ?_, ?_, ?_⟩
  · intro p h
    unfold classify
    rw [if_pos h]
  · intro p h h'
    unfold classify
    rw [if_neg (not_le.mpr (by linarith)), if_pos h]
  · intro p h h'
    unfold classify
    rw [if_neg (not_le.mpr (by linarith)), if_neg (not_le.mpr (by linarith)),
      if_pos h]
  · intro p h
    unfold classify
    rw [if_neg (not_le.mpr (by linarith)), if_neg (not_le.mpr (by linarith)),
      if_neg (not_le.mpr (by linarith))]
  · intro p q hpq
    unfold classify
    split_ifs <;> simp_all [RiskTier.severity] <;> linarith

/-- Witness for C1: the ladder and monotonicity instantiated at concrete
probabilities. -/
theorem classify_threshold_ladder_witness :
    classify (4/5) = .critical ∧
    (classify (2/5)).severity ≤ (classify (3/5)).severity :=
  ⟨classify_threshold_ladder.2.2.2.2.1 (4/5) (by norm_num),
   classify_threshold_ladder.2.2.2.2.2.2.2.2 (2/5) (3/5) (by norm_num)⟩

/-- C2 counterexample: the batch binning (pd.cut with right-closed bins) and
the single-record ladder disagree at the boundary probability 0.30: the batch
bins it as Low while the single-record classifier gives Medium, so the two
tier-assignment functions are not extensionally equal. -/
theorem batch_vs_single_counterexample :
    batchBin (3/10) = some .low ∧ classify (3/10) = .medium := by
  constructor
  · norm_num [batchBin]
  · norm_num [classify]

/-- C2 amended: away from the interior bin boundaries, the two agree: for
every probability p in (0, 1] with p distinct from 0.30, 0.50 and 0.70, the
batch binning assigns exactly the tier of the single-record classifier.  At
the boundaries the batch assigns the tier below, and outside (0, 1] it
assigns no tier at all. -/
theorem batch_vs_single_agree_off_boundaries :
    ∀ p : ℚ, 0 < p → p ≤ 1 → p ≠ 3/10 → p ≠ 1/2 → p ≠ 7/10 →
      batchBin p = some (classify p) := by
  intro p h0 h1 hne3 hne5 hne7
  rcases hne3.lt_or_lt with ha | ha
  · -- p < 3/10: both Low
    unfold batchBin classify
    rw [if_pos ⟨h0, ha.le⟩, if_neg (not_le.mpr (by linarith)),
      if_neg (not_le.mpr (by linarith)), if_neg (not_le.mpr (by linarith))]
  · rcases hne5.lt_or_lt with hb | hb
    · -- 3/10 < p < 1/2: both Medium
      unfold batchBin classify
      rw [if_neg (by push_neg; intro _; linarith), if_pos ⟨ha, hb.le⟩,
        if_neg (not_le.mpr (by linarith)), if_neg (not_le.mpr (by linarith)),
        if_pos (by linarith)]
    · rcases hne7.lt_or_lt with hc | hc
      · -- 1/2 < p < 7/10: both High
        unfold batchBin classify
        rw [if_neg (by push_neg; intro _; linarith),
          if_neg (by push_neg; intro _; linarith), if_pos ⟨hb, hc.le⟩,
          if_neg (not_le.mpr (by linarith)), if_pos (by linarith)]
      · -- 7/10 < p ≤ 1: both Critical
        unfold batchBin classify
        rw [if_neg (by push_neg; intro _; linarith),
          if_neg (by push_neg; intro _; linarith),
          if_neg (by push_neg; intro _; linarith), if_pos ⟨hc, h1⟩,
          if_pos (by linarith)]

/-- Witness for the amended C2: agreement at the interior probability 0.40. -/
theorem batch_vs_single_agree_witness :
    batchBin (2/5) = some (classify (2/5)) :=
  batch_vs_single_agree_off_boundaries (2/5) (by norm_num) (by norm_num)
    (by norm_num) (by norm_num) (by norm_num)

/-- C6: the single-record classifier never rejects its input: for every
probability p, classify p equals classify of p clamped to [0, 1]; in
particular every p above 1 is Critical and every p below 0 is Low, and no
error is possible (classify is a total function). -/
theorem classify_clamp_equiv :
    (∀ p : ℚ, classify p = classify (max 0 (min 1 p))) ∧
    (∀ p : ℚ, 1 < p → classify p = .critical) ∧
    (∀ p : ℚ, p < 0 → classify p = .low) := by
  refine ⟨?_, ?_, ?_⟩
  · intro p
    rcases lt_or_le p 0 with h | h
    · have hlow : classify p = .low := by
        unfold classify
        rw [if_neg (not_le.mpr (by linarith)), if_neg (not_le.mpr (by linarith)),
          if_neg (not_le.mpr (by linarith))]
      rw [min_eq_right (by linarith : p ≤ (1:ℚ)), max_eq_left h.le, hlow]
      norm_num [classify]
    · rcases le_or_lt p 1 with h1 | h1
      · rw [min_eq_right h1, max_eq_right h]
      · have hcrit : classify p = .critical := by
          unfold classify
          rw [if_pos (by linarith)]
        rw [min_eq_left h1.le, max_eq_right (by norm_num : (0:ℚ) ≤ 1), hcrit]
        norm_num [classify]
  · intro p h
    unfold classify
    rw [if_pos (by linarith)]
  · intro p h
    unfold classify
    rw [if_neg (not_le.mpr (by linarith)), if_neg (not_le.mpr (by linarith)),
      if_neg (not_le.mpr (by linarith))]

/-- Witness for C6: the out-of-range probabilities 1.5 and -0.5 are clamped
into Critical and Low respectively. -/
theorem classify_clamp_equiv_witness :
    classify (3/2) = .critical ∧ classify (-1/2) = .low :=
  ⟨classify_clamp_equiv.2.1 (3/2) (by norm_num),
   classify_clamp_equiv.2.2 (-1/2) (by norm_num)⟩

/-- C3: the heuristic estimate equals base 0.20 plus 0.30 for month-to-month
contract, plus 0.20 for tenure below 12, plus 0.10 for fiber internet, plus
0.10 for electronic-check payment, clamped to at most 0.95; the concrete
month-to-month fiber record yields 0.90 and tier Critical, and the concrete
two-year DSL record yields 0.20 and tier Low. -/
theorem estimate_additive_formula :
    (∀ r : CustomerRecord,
      estimate r = min ((1:ℚ)/5
        + (if r.contract = "Month-to-month" then (3:ℚ)/10 else 0)
        + (if r.tenure < 12 then (1:ℚ)/5 else 0)
        + (if r.internet = "Fiber optic" then (1:ℚ)/10 else 0)
        + (if r.payment = "Electronic check" then (1:ℚ)/10 else 0)) (19/20)) ∧
    estimate monthToMonthFiberRecord = 9/10 ∧
    classify (estimate monthToMonthFiberRecord) = .critical ∧
    estimate twoYearDslRecord = 1/5 ∧
    classify (estimate twoYearDslRecord) = .low := by
  have hform : ∀ r : CustomerRecord,
      estimate r = min ((1:ℚ)/5
        + (if r.contract = "Month-to-month" then (3:ℚ)/10 else 0)
        + (if r.tenure < 12 then (1:ℚ)/5 else 0)
        + (if r.internet = "Fiber optic" then (1:ℚ)/10 else 0)
        + (if r.payment = "Electronic check" then (1:ℚ)/10 else 0)) (19/20) := by
    intro r
    simp only [estimate, estimateRaw]
    split_ifs <;> norm_num
  have h1 : estimate monthToMonthFiberRecord = 9/10 := by
    rw [hform]
    norm_num [monthToMonthFiberRecord]
  have h2 : estimate twoYearDslRecord = 1/5 := by
    rw [hform]
    simp only [twoYearDslRecord]
    rw [if_neg (by decide), if_neg (by decide), if_neg (by decide),
      if_neg (by decide)]
    norm_num
  refine ⟨hform, h1, ?_, h2, ?_⟩
  · rw [h1]; norm_num [classify]
  · rw [h2]; norm_num [classify]

/-- C7: the heuristic estimate is deterministic and depends only on contract,
tenure, internet service and payment method: any two records agreeing on
those four fields receive the same estimate. -/
theorem estimate_field_dependence :
    ∀ r1 r2 : CustomerRecord, r1.contract = r2.contract →
      r1.tenure = r2.tenure → r1.internet = r2.internet →
      r1.payment = r2.payment → estimate r1 = estimate r2 := by
  intro r1 r2 hc ht hi hp
  simp only [estimate, estimateRaw, hc, ht, hi, hp]

/-- Witness for C7: two records differing in gender, senior flag and monthly
charge receive the same estimate. -/
theorem estimate_field_dependence_witness :
    estimate monthToMonthFiberRecord =
      estimate { monthToMonthFiberRecord with
        gender := "Female", senior := "Yes", monthly := 100 } :=
  estimate_field_dependence _ _ rfl rfl rfl rfl

/-- C8: the recommendations form a fixed side-effect-free lookup on the risk
tier - Critical gives the contract-upgrade-discount and dedicated-support
actions in order, High gives the check-in-call and pricing-review actions,
and Medium and Low both give standard engagement - and the probability-based
branches of the code agree with that lookup through classify. -/
theorem recommend_fixed_lookup :
    recommend .critical =
      ["Offer contract upgrade discount", "Assign dedicated support"] ∧
    recommend .high = ["Schedule check-in call", "Review pricing options"] ∧
    recommend .medium = ["Continue standard engagement"] ∧
    recommend .low = ["Continue standard engagement"] ∧
    (∀ p : ℚ, recommendOfProb p = recommend (classify p)) := by
  refine ⟨rfl, rfl, rfl, rfl, ?_⟩
  intro p
  unfold recommendOfProb classify
  split_ifs <;> rfl

/-- C9: for every record the raw additive sum lies in [0.20, 0.90], so the
final clamp at 0.95 is never active and the estimate equals the unclamped
sum. -/
theorem estimate_bounds_and_clamp_inactive :
    ∀ r : CustomerRecord,
      estimate r = estimateRaw r ∧ 1/5 ≤ estimate r ∧ estimate r ≤ 9/10 := by
  intro r
  have h : 1/5 ≤ estimateRaw r ∧ estimateRaw r ≤ 9/10 := by
    simp only [estimateRaw]
    split_ifs <;> norm_num
  have heq : estimate r = estimateRaw r := by
    simp only [estimate]
    exact min_eq_left (by linarith [h.2])
  exact ⟨heq, heq ▸ h.1, heq ▸ h.2⟩

/-- C4: for every valid snapshot pair, compare yields customer, churn-rate,
revenue and at-risk deltas equal to current minus baseline, an annualized
profit/loss equal to minus the at-risk delta times 12, and an improvement
flag that holds exactly when the churn rate strictly decreased (equal rate
is not an improvement). -/
theorem compare_delta_spec :
    (∀ b c : DatasetSnapshot, b.id ≠ c.id → b.count ≠ 0 → c.count ≠ 0 →
      ChurnApp.compare b c = Except.ok {
        customerChange := (c.count : Int) - (b.count : Int),
        churnRateChange := c.churnRatePct - b.churnRatePct,
        revenueChange := c.totalRevenue - b.totalRevenue,
        riskChange := c.revenueAtRisk - b.revenueAtRisk,
        profitLossAmount := -(c.revenueAtRisk - b.revenueAtRisk) * 12,
        isImprovement := decide (c.churnRatePct - b.churnRatePct < 0) }) ∧
    (∀ b c : DatasetSnapshot, b.id ≠ c.id → b.count ≠ 0 → c.count ≠ 0 →
      ∀ res, ChurnApp.compare b c = Except.ok res →
        (res.isImprovement = true ↔ c.churnRatePct - b.churnRatePct < 0)) := by
  have hmain : ∀ b c : DatasetSnapshot, b.id ≠ c.id → b.count ≠ 0 →
      c.count ≠ 0 → ChurnApp.compare b c = Except.ok {
        customerChange := (c.count : Int) - (b.count : Int),
        churnRateChange := c.churnRatePct - b.churnRatePct,
        revenueChange := c.totalRevenue - b.totalRevenue,
        riskChange := c.revenueAtRisk - b.revenueAtRisk,
        profitLossAmount := -(c.revenueAtRisk - b.revenueAtRisk) * 12,
        isImprovement := decide (c.churnRatePct - b.churnRatePct < 0) } := by
    intro b c hid hb hc
    unfold ChurnApp.compare
    rw [if_neg hid, if_neg (by push_neg; exact ⟨hb, hc⟩)]
  refine ⟨hmain, ?_⟩
  intro b c hid hb hc res hres
  rw [hmain b c hid hb hc] at hres
  obtain rfl := (Except.ok.inj hres).symm
  simp

/-- Witness for C4: the spec's concrete comparison yields +50 customers,
-5.0 churn points, +2000 revenue, -3000 at-risk revenue, improvement, and
annual profit 36000. -/
theorem compare_delta_spec_witness :
    ChurnApp.compare baselineSnapshot currentSnapshot = Except.ok
      { customerChange := 50, churnRateChange := -5, revenueChange := 2000,
        riskChange := -3000, profitLossAmount := 36000,
        isImprovement := true } := by
  rw [compare_delta_spec.1 baselineSnapshot currentSnapshot
    (by decide) (by decide) (by decide)]
  congr 1
  simp only [baselineSnapshot, currentSnapshot]
  norm_num

/-- C5: compare fails (with no partial result) whenever either snapshot has
zero customers, signaling an InvalidComparisonError, and fails with the
distinct IdenticalDatasetError whenever baseline and current refer to the
same dataset. -/
theorem compare_failure_cases :
    (∀ b c : DatasetSnapshot, b.count = 0 ∨ c.count = 0 →
      ∃ e, ChurnApp.compare b c = Except.error e ∧
        e.isInvalidComparisonError = true) ∧
    (∀ b c : DatasetSnapshot, b.id = c.id →
      ChurnApp.compare b c = Except.error CompareError.identicalDataset) := by
  constructor
  · intro b c h
    by_cases hid : b.id = c.id
    · exact ⟨.identicalDataset, by unfold ChurnApp.compare; rw [if_pos hid],
        rfl⟩
    · exact ⟨.invalidComparison,
        by unfold ChurnApp.compare; rw [if_neg hid, if_pos h], rfl⟩
  · intro b c h
    unfold ChurnApp.compare
    rw [if_pos h]

/-- Witness for C5: comparing a zero-customer snapshot fails as an invalid
comparison, and comparing a snapshot with itself fails as an identical
dataset. -/
theorem compare_failure_cases_witness :
    (∃ e, ChurnApp.compare emptySnapshot currentSnapshot = Except.error e ∧
      e.isInvalidComparisonError = true) ∧
    ChurnApp.compare baselineSnapshot baselineSnapshot =
      Except.error CompareError.identicalDataset :=
  ⟨compare_failure_cases.1 emptySnapshot currentSnapshot (Or.inl rfl),
   compare_failure_cases.2 baselineSnapshot baselineSnapshot rfl⟩

/-- C10: in the dashboard aggregates the at-risk threshold is 0.5 inclusive
and differs from the 0.7 high-risk-count threshold: monthly revenue at risk
sums MonthlyCharges over rows with probability >= 0.5, the high-risk count
counts rows with probability >= 0.7, the average churn rate is the mean
probability times 100, and a row with 0.5 <= probability < 0.7 contributes
to revenue at risk but not to the high-risk count. -/
theorem dashboard_kpi_thresholds :
    (∀ (r : DashRow) (data : List DashRow),
      revenueAtRisk (r :: data) =
        (if 1/2 ≤ r.prob then r.monthlyCharges else 0) + revenueAtRisk data) ∧
    (∀ (r : DashRow) (data : List DashRow),
      highRiskCount (r :: data) =
        (if 7/10 ≤ r.prob then 1 else 0) + highRiskCount data) ∧
    (∀ data : List DashRow, data ≠ [] →
      avgChurnRatePct data * (data.length : ℚ) =
        ((data.map fun r => r.prob).sum) * 100) ∧
    (∀ r : DashRow, 1/2 ≤ r.prob → r.prob < 7/10 →
      revenueAtRisk [r] = r.monthlyCharges ∧ highRiskCount [r] = 0 ∧
        atRiskCount [r] = 1) := by
  refine ⟨?_, ?_, ?_, ?_⟩
  · intro r data
    simp only [revenueAtRisk, List.filter_cons, decide_eq_true_eq]
    by_cases h : (1:ℚ)/2 ≤ r.prob
    · rw [if_pos h, if_pos h, List.map_cons, List.sum_cons]
    · rw [if_neg h, if_neg h, zero_add]
  · intro r data
    simp only [highRiskCount, List.filter_cons, decide_eq_true_eq]
    by_cases h : (7:ℚ)/10 ≤ r.prob
    · rw [if_pos h, if_pos h, List.length_cons]
      omega
    · rw [if_neg h, if_neg h, zero_add]
  · intro data hne
    have hlen : (data.length : ℚ) ≠ 0 :=
      Nat.cast_ne_zero.mpr (List.length_pos.mpr hne).ne'
    unfold avgChurnRatePct
    field_simp
  · intro r h h'
    have h7 : ¬ (7:ℚ)/10 ≤ r.prob := not_le.mpr h'
    refine ⟨?_, ?_, ?_⟩
    · simp only [revenueAtRisk, List.filter_cons, List.filter_nil,
        decide_eq_true_eq]
      rw [if_pos h]
      simp
    · simp only [highRiskCount, List.filter_cons, List.filter_nil,
        decide_eq_true_eq]
      rw [if_neg h7]
      rfl
    · simp only [atRiskCount, List.filter_cons, List.filter_nil,
        decide_eq_true_eq]
      rw [if_pos h]
      rfl

/-- Witness for C10: the boundary row with probability exactly 0.5
contributes its monthly charge to revenue at risk, is counted at risk, is
not counted high risk, and the mean-probability identity holds on the
singleton table. -/
theorem dashboard_kpi_thresholds_witness :
    (revenueAtRisk [boundaryRow] = boundaryRow.monthlyCharges ∧
      highRiskCount [boundaryRow] = 0 ∧ atRiskCount [boundaryRow] = 1) ∧
    avgChurnRatePct [boundaryRow] * (([boundaryRow] : List DashRow).length : ℚ) =
      (([boundaryRow] : List DashRow).map fun r => r.prob).sum * 100 :=
  ⟨dashboard_kpi_thresholds.2.2.2 boundaryRow
      (by norm_num [boundaryRow]) (by norm_num [boundaryRow]),
   dashboard_kpi_thresholds.2.2.1 [boundaryRow] (by simp)⟩
